import Mathlib

/-!
Verification development for the Chat-MBTI conversation orchestration engine.

The definitions below are a shallow embedding of the Python sources:
  - diagnosis-ai-api/src/driver/langgraph_driver.py
      (retry_on_llm_error, _filter_messages_by_phase, the two graph nodes,
       run_workflow),
  - diagnosis-ai-api/src/gateway/llm_gateway.py (generate_options),
  - diagnosis-chat-api/src/usecase/utils.py
      (_organize_chat_history, _combine_options_list),
  - diagnosis-ai-api/src/usecase/data_collection_service.py,
  - diagnosis-chat-api/src/usecase/mbti_conversation_service.py
      (process_user_response, complete_assessment, undo_last_answer).

Python integers on the non-negative ranges used by the code are modelled by
Nat (and by Int where a sign test occurs in the source); Python float delays
are modelled by Rat; external ports (LLM calls, repositories, the checkpoint
store) are modelled as explicit function parameters, and the LangGraph
channel semantics (messages accumulate via the add_messages reducer, every
other channel is last-value) is applied directly in the state transformers.
-/

/-- A chat message, mirroring the role/content dictionaries that
_filter_messages_by_phase and _organize_chat_history walk over. -/
structure Msg where
  role : String
  content : String
  deriving Repr, DecidableEq

/-- Phase-start test from _generate_question_node (langgraph_driver.py:172):
is_first_question_of_phase = current_order == 0 or
current_order % questions_per_phase == 0. -/
def is_first_question_of_phase (questions_per_phase current_order : Nat) : Bool :=
  current_order == 0 || current_order % questions_per_phase == 0

/-- Element-id recomputation from run_workflow (langgraph_driver.py:516):
personality_element_id = (current_next_order // questions_per_phase) % 4 + 1. -/
def element_id_of_order (questions_per_phase order : Nat) : Nat :=
  order / questions_per_phase % 4 + 1

/-- current_phase from _filter_messages_by_phase (langgraph_driver.py:88):
((current_question_number - 1) // questions_per_phase) + 1, on the branch
where current_question_number is positive. -/
def current_phase_of (current_question_number questions_per_phase : Nat) : Nat :=
  (current_question_number - 1) / questions_per_phase + 1

/-- phase_start_question from _filter_messages_by_phase
(langgraph_driver.py:91): (current_phase - 1) * questions_per_phase + 1. -/
def phase_start_of (current_question_number questions_per_phase : Nat) : Nat :=
  (current_phase_of current_question_number questions_per_phase - 1) * questions_per_phase + 1

/-- One iteration of the message loop in _filter_messages_by_phase
(langgraph_driver.py:104-116).  The accumulator is
(question_count, filtered_messages); an assistant message bumps the count and
is kept iff phase_start_question <= question_count <= current_question_number;
a user message is kept iff the filtered list is nonempty and ends in an
assistant message; any other role is skipped. -/
def filter_step (phase_start_question current_question_number : Nat)
    (s : Nat × List Msg) (msg : Msg) : Nat × List Msg :=
  if msg.role = "assistant" then
    let question_count := s.1 + 1
    if phase_start_question ≤ question_count ∧ question_count ≤ current_question_number then
      (question_count, s.2 ++ [msg])
    else
      (question_count, s.2)
  else if msg.role = "user" ∧ (s.2.getLast?.map Msg.role = some "assistant") then
    (s.1, s.2 ++ [msg])
  else
    s

/-- The ContextWindower _filter_messages_by_phase (langgraph_driver.py:80-121).
The target question number is an Int because the source tests
current_question_number <= 0 before any arithmetic. -/
def filter_messages_by_phase (messages : List Msg) (current_question_number : Int)
    (questions_per_phase : Nat) : List Msg :=
  if current_question_number ≤ 0 then []
  else
    let n := current_question_number.toNat
    let phase_start_question := phase_start_of n questions_per_phase
    (messages.foldl (filter_step phase_start_question n) (0, [])).2

/-- Number of assistant messages in a list: the final value of question_count
in the loop of _filter_messages_by_phase. -/
def assistantCount (messages : List Msg) : Nat :=
  (messages.filter (fun m => m.role == "assistant")).length

/-- The assistant-message subsequence of a message list. -/
def assistantFilter (messages : List Msg) : List Msg :=
  messages.filter (fun m => m.role == "assistant")

/-- Tags each assistant message with its 1-based running index (the value
question_count takes when the loop of _filter_messages_by_phase reaches it),
starting the count at k. -/
def tagAssistants : List Msg → Nat → List (Nat × Msg)
  | [], _ => []
  | m :: rest, k =>
    if m.role == "assistant" then (k + 1, m) :: tagAssistants rest (k + 1)
    else tagAssistants rest k

/-- Failure classification used by retry_on_llm_error: the wrapped calls
translate raw failures into LLMRateLimitError, LLMTimeoutError, or plain
LLMError (langgraph_driver.py:311-334, 405-423). -/
inductive LLMErrKind where
  | rateLimit
  | timeout
  | other
  deriving Repr, DecidableEq

/-- MAX_RETRIES = 3 (langgraph_driver.py:28). -/
def MAX_RETRIES : Nat := 3

/-- RETRY_DELAY = 1.0 seconds (langgraph_driver.py:29). -/
def RETRY_DELAY : Rat := 1

/-- BACKOFF_MULTIPLIER = 2.0 (langgraph_driver.py:30). -/
def BACKOFF_MULTIPLIER : Rat := 2

/-- The error kinds retry_on_llm_error retries on (its first two except
clauses); plain LLMError fails immediately. -/
def LLMErrKind.retryable : LLMErrKind → Bool
  | .rateLimit => true
  | .timeout => true
  | .other => false

/-- The attempt loop of retry_on_llm_error (langgraph_driver.py:36-75).
f gives the outcome of each 0-based attempt; the result pairs the final
outcome with the list of back-off sleeps performed.  The fuel argument counts
the remaining loop iterations (MAX_RETRIES at the start); the fuel-0 value
models the unreachable trailing raise after the loop. -/
def retryLoop {α : Type} (f : Nat → Except LLMErrKind α) :
    Nat → Nat → Rat → List Rat → Except LLMErrKind α × List Rat
  | 0, _, _, sleeps => (Except.error LLMErrKind.other, sleeps)
  | fuel + 1, attempt, delay, sleeps =>
    match f attempt with
    | Except.ok a => (Except.ok a, sleeps)
    | Except.error e =>
      if e.retryable then
        if attempt < MAX_RETRIES - 1 then
          retryLoop f fuel (attempt + 1) (delay * BACKOFF_MULTIPLIER) (sleeps ++ [delay])
        else (Except.error e, sleeps)
      else (Except.error e, sleeps)

/-- The RetryPolicy wrapper retry_on_llm_error (langgraph_driver.py:33-77):
up to MAX_RETRIES attempts, starting delay RETRY_DELAY, doubling after each
retried failure. -/
def retry_on_llm_error {α : Type} (f : Nat → Except LLMErrKind α) :
    Except LLMErrKind α × List Rat :=
  retryLoop f MAX_RETRIES 0 RETRY_DELAY []

/-- The helper _organize_chat_history (diagnosis-chat-api usecase/utils.py):
joins "role: content" lines, skipping messages whose role or content is
falsy (the empty string). -/
def organize_chat_history (raw_messages : List Msg) : String :=
  String.intercalate "\n"
    ((raw_messages.filter (fun m => m.role != "" && m.content != "")).map
      (fun m => m.role ++ ": " ++ m.content))

/-- The helper _combine_options_list (diagnosis-chat-api usecase/utils.py):
the already-generated options joined by newlines, or a fixed placeholder
string when none exist yet. -/
def combine_options_list (options_list : List String) : String :=
  if options_list.length = 0 then "まだ候補がありません"
  else String.intercalate "\n" options_list

/-- Whitespace characters removed by the Python str.strip() calls in
generate_options. -/
def isStripChar (c : Char) : Bool :=
  c = ' ' || c = '\t' || c = '\n' || c = '\r'

/-- Python str.strip(): drop leading and trailing whitespace.  Implemented on
the character list so that it evaluates inside the kernel. -/
def pyStrip (s : String) : String :=
  String.mk (((s.data.dropWhile isStripChar).reverse.dropWhile isStripChar).reverse)

/-- Helper for pySplitColon: accumulates the current segment (reversed). -/
def splitColonAux : List Char → List Char → List (List Char)
  | [], cur => [cur.reverse]
  | c :: rest, cur =>
    if c = ':' then cur.reverse :: splitColonAux rest []
    else splitColonAux rest (c :: cur)

/-- Python str.split(":"): the segments of the string between colons. -/
def pySplitColon (s : String) : List String :=
  (splitColonAux s.data []).map String.mk

/-- Python的 (":" in s): whether the string contains a colon. -/
def pyContainsColon (s : String) : Bool :=
  s.data.contains ':'

/-- LLMGateway.generate_options (llm_gateway.py:52-72): combines the existing
options into the prompt, strips the raw model output, and when the output
contains a colon keeps only the text after the last colon (dropping
role-prefix artifacts such as "assistant:").  The prompt template and the
model call are the external parameters prompt_format and llm_invoke. -/
def gateway_generate_options (prompt_format : String → String → String)
    (llm_invoke : String → String) (messages : String)
    (existing_options : List String) : String :=
  let options := combine_options_list existing_options
  let new_option := pyStrip (llm_invoke (prompt_format messages options))
  if pyContainsColon new_option then pyStrip ((pySplitColon new_option).getLastD "")
  else new_option

/-- Decidable equality for Except values, used to evaluate embedded results
on concrete inputs. -/
instance {ε α : Type} [DecidableEq ε] [DecidableEq α] : DecidableEq (Except ε α) :=
  fun x y =>
    match x, y with
    | Except.ok a, Except.ok b =>
      if h : a = b then Decidable.isTrue (by rw [h])
      else Decidable.isFalse (fun hc => h (by injection hc))
    | Except.error a, Except.error b =>
      if h : a = b then Decidable.isTrue (by rw [h])
      else Decidable.isFalse (fun hc => h (by injection hc))
    | Except.ok _, Except.error _ => Decidable.isFalse (fun hc => by injection hc)
    | Except.error _, Except.ok _ => Decidable.isFalse (fun hc => by injection hc)

example : is_first_question_of_phase 10 0 = true := by decide
example : is_first_question_of_phase 10 7 = false := by decide
example : element_id_of_order 10 25 = 3 := by decide
example :
    filter_messages_by_phase
      [Msg.mk "assistant" "q1", Msg.mk "user" "a1", Msg.mk "assistant" "q2"] 2 10 =
      [Msg.mk "assistant" "q1", Msg.mk "user" "a1", Msg.mk "assistant" "q2"] := by decide
example : filter_messages_by_phase [Msg.mk "assistant" "q1"] 1 10 =
    [Msg.mk "assistant" "q1"] := by decide
example :
    retry_on_llm_error (fun attempt =>
      if attempt < 2 then Except.error LLMErrKind.rateLimit else Except.ok 7) =
      (Except.ok 7, [1, 2]) := by
  norm_num [retry_on_llm_error, retryLoop, MAX_RETRIES, RETRY_DELAY, BACKOFF_MULTIPLIER,
    LLMErrKind.retryable]
example :
    retry_on_llm_error (fun _ => (Except.error LLMErrKind.other : Except LLMErrKind Nat)) =
      (Except.error LLMErrKind.other, []) := by
  norm_num [retry_on_llm_error, retryLoop, MAX_RETRIES, RETRY_DELAY, BACKOFF_MULTIPLIER,
    LLMErrKind.retryable]
example :
    gateway_generate_options (fun m o => m ++ o) (fun _ => " assistant: yes ") "x" [] =
      "yes" := by decide

/-- Python dict assignment d[k] = v on the answers dictionary, modelled on an
association list keyed by display order. -/
def dictInsert (d : List (Nat × String)) (k : Nat) (v : String) : List (Nat × String) :=
  (d.filter (fun p => p.1 != k)) ++ [(k, v)]

/-- The ChatState channels of the workflow (usecase/type.py:21-36) that the
claims are about.  The meta fields user_id and session_id are omitted: no
modelled operation reads them.  options holds the lists written by
_generate_options_node (the node stores [options_list], and the channel has
no reducer, so each write replaces the previous value). -/
structure WFState where
  phase : String
  messages : List Msg
  answers : List (Nat × String)
  personality_element_id : Nat
  next_display_order : Nat
  pending_question : Option String
  options : List (List String)
  deriving Repr, DecidableEq

/-- The generation capabilities consumed by the graph nodes, abstracted at
the port boundary (port/ports.py): get_initial_question(element_id),
generate_question(chat_history, context with element id and order), and
generate_options(messages_text, existing options).  This models the success
path of the retry-wrapped calls; the retry behaviour itself is embedded
separately in retry_on_llm_error and generate_options_node_r. -/
structure GenPorts where
  get_initial_question : Nat → String
  generate_question : String → Nat → Nat → String
  generate_options : String → List String → String

/-- The node _generate_question_node (langgraph_driver.py:163-309), with the
LangGraph merge of its returned partial state applied: the returned message
is appended to the messages channel (add_messages reducer); pending_question,
personality_element_id and next_display_order are replaced.  On the
phase-start branch the canned question for the state's element id is used
with no generation call; otherwise the previous answer (the last message) is
recorded, the history is windowed to the current phase and the generation
port is invoked. -/
def generate_question_node (questions_per_phase : Nat) (ports : GenPorts)
    (state : WFState) : WFState :=
  let current_order := state.next_display_order
  if current_order == 0 || current_order % questions_per_phase == 0 then
    let element_id := state.personality_element_id
    let question := ports.get_initial_question element_id
    { state with
      messages := state.messages ++ [Msg.mk "assistant" question],
      pending_question := some question,
      personality_element_id := element_id,
      next_display_order := current_order + 1 }
  else
    let order := current_order
    let answers2 :=
      if state.messages.length > 0 && order > 0 then
        dictInsert state.answers order ((state.messages.getLastD (Msg.mk "" "")).content)
      else state.answers
    let current_question_number : Int := (order : Int) + 1
    let filtered_messages :=
      filter_messages_by_phase state.messages current_question_number questions_per_phase
    let chat_history := organize_chat_history filtered_messages
    let question := ports.generate_question chat_history state.personality_element_id order
    { state with
      messages := state.messages ++ [Msg.mk "assistant" question],
      answers := answers2,
      pending_question := some question,
      next_display_order := order + 1 }

/-- The sequential option loop of _generate_options_node
(langgraph_driver.py:376-380): each call receives the options generated so
far in this round. -/
def optionsLoop (gen : String → List String → String) (messages_text : String) :
    Nat → List String → List String
  | 0, acc => acc
  | k + 1, acc => optionsLoop gen messages_text k (acc ++ [gen messages_text acc])

/-- The node _generate_options_node (langgraph_driver.py:336-403): windows
the history to the current phase, generates num_options = 3 options
sequentially, and writes [options_list] to the options channel (replacing
the previous value). -/
def generate_options_node (questions_per_phase : Nat) (ports : GenPorts)
    (state : WFState) : WFState :=
  let current_question_number : Int := (state.next_display_order : Int)
  let filtered_messages :=
    filter_messages_by_phase state.messages current_question_number questions_per_phase
  let messages_text := organize_chat_history filtered_messages
  let options_list := optionsLoop ports.generate_options messages_text 3 []
  { state with options := [options_list] }

/-- LangGraphDriver.run_workflow (langgraph_driver.py:425-585) on the success
path.  The incoming user messages are filtered to nonempty content; when an
existing checkpointed state is present the input is merged with it (messages
accumulate, personality_element_id is recomputed from next_display_order via
the scheduler formula at line 516, all other channels keep their
checkpointed values); otherwise a fresh state is created at order 0 with the
caller-provided element id.  The graph then runs generate_question followed
by generate_options. -/
def run_workflow (questions_per_phase : Nat) (ports : GenPorts)
    (existing_state : Option WFState) (user_messages : List Msg)
    (personality_element_id : Nat) : WFState :=
  let messages := user_messages.filter (fun m => m.content != "")
  let state :=
    match existing_state with
    | some es =>
      { es with
        messages := es.messages ++ messages,
        personality_element_id :=
          es.next_display_order / questions_per_phase % 4 + 1 }
    | none =>
      { phase := "ask",
        messages := messages,
        answers := [],
        personality_element_id := personality_element_id,
        next_display_order := 0,
        pending_question := none,
        options := [] }
  generate_options_node questions_per_phase ports
    (generate_question_node questions_per_phase ports state)

/-- The per-call attempt oracle form of _generate_option_with_retry
(langgraph_driver.py:405-423): given the options generated so far and a
0-based attempt number, the call either yields a cleaned option string or a
classified failure; retry_on_llm_error wraps each call individually. -/
def optionsLoopR (try_gen : List String → Nat → Except LLMErrKind String) :
    Nat → List String → Except LLMErrKind (List String) × List Rat
  | 0, acc => (Except.ok acc, [])
  | k + 1, acc =>
    let attempt := retry_on_llm_error (try_gen acc)
    match attempt.1 with
    | Except.ok new_option =>
      let rest := optionsLoopR try_gen k (acc ++ [new_option])
      (rest.1, attempt.2 ++ rest.2)
    | Except.error e => (Except.error e, attempt.2)

/-- _generate_options_node with the retry-wrapped fallible option calls made
explicit: each of the 3 sequential calls goes through retry_on_llm_error,
and the first failure that survives its retries aborts the node.  The second
component collects every back-off sleep performed. -/
def generate_options_node_r (questions_per_phase : Nat)
    (try_generate_option : String → List String → Nat → Except LLMErrKind String)
    (state : WFState) : Except LLMErrKind WFState × List Rat :=
  let current_question_number : Int := (state.next_display_order : Int)
  let filtered_messages :=
    filter_messages_by_phase state.messages current_question_number questions_per_phase
  let messages_text := organize_chat_history filtered_messages
  let run := optionsLoopR (try_generate_option messages_text) 3 []
  match run.1 with
  | Except.ok options_list => (Except.ok { state with options := [options_list] }, run.2)
  | Except.error e => (Except.error e, run.2)

/-- NUM_PHASES = 4 (mbti_conversation_service.py:45). -/
def NUM_PHASES : Nat := 4

/-- TOTAL_QUESTIONS = QUESTIONS_PER_PHASE * NUM_PHASES
(mbti_conversation_service.py:46, 68); the per-phase count is configured at
service construction via get_question_per_phase. -/
def TOTAL_QUESTIONS (questions_per_phase : Nat) : Nat :=
  questions_per_phase * NUM_PHASES

/-- DataCollectionService.QUESTIONS_PER_SET = 10
(data_collection_service.py:20). -/
def DC_QUESTIONS_PER_SET : Nat := 10

/-- DataCollectionService.TOTAL_SETS = 5 (data_collection_service.py:21). -/
def DC_TOTAL_SETS : Nat := 5

/-- DataCollectionService.TOTAL_QUESTIONS = 10 * 5
(data_collection_service.py:22). -/
def DC_TOTAL_QUESTIONS : Nat := DC_QUESTIONS_PER_SET * DC_TOTAL_SETS

/-- DataCollectionService.is_data_collection_complete
(data_collection_service.py:89-91). -/
def is_data_collection_complete (question_number : Nat) : Bool :=
  question_number ≥ DC_TOTAL_QUESTIONS

/-- The fixed pseudo user of data-collection mode
(mbti_conversation_service.py:104). -/
def DATA_COLLECTION_USER : String := "data_collection_user"

/-- The error taxonomy observable at the MBTIConversationService boundary
(exceptions.py): SessionNotFoundError, InvalidResponseError,
AssessmentIncompleteError with its answered/required details, and the
generic AssessmentError that the catch-all handler wraps unexpected
exceptions (such as the IndexError of an empty session lookup) into. -/
inductive SvcErr where
  | sessionNotFound
  | invalidResponse
  | assessmentIncomplete (answered required : Nat)
  | assessmentError
  deriving Repr, DecidableEq

/-- The structured result of process_user_response: either the diagnosis
phase response (assessment complete, no generation) or the next question
with progress, the 1-based clamped question number and the total. -/
inductive ProcResponse where
  | diagnosis
  | question (question : String) (progress : Rat) (question_number total_questions : Nat)
  deriving Repr, DecidableEq

/-- Outcome of process_user_response: the returned value or raised error,
plus whether execute_conversation_flow was invoked.  The service mutates
conversation state only through that workflow call, so
workflow_invoked = false means the persisted state is left unchanged. -/
structure ProcOutcome where
  result : Except SvcErr ProcResponse
  workflow_invoked : Bool
  deriving Repr, DecidableEq

/-- MBTIConversationService.process_user_response
(mbti_conversation_service.py:217-393).  session_ids is the in_progress
session list returned by the repository for this user; current_state is the
conversation state fetched for its head; wf_exec is the
execute_conversation_flow port, returning the state persisted by the round
(the source re-fetches exactly that state after the call).  Data-collection
mode derives progress extras that do not affect the modelled fields and are
omitted. -/
def process_user_response (questions_per_phase : Nat)
    (wf_exec : String → WFState → WFState) (user_input : String) (user_id : String)
    (session_ids : List String) (current_state : WFState) : ProcOutcome :=
  match session_ids.head? with
  | none => ⟨Except.error SvcErr.sessionNotFound, false⟩
  | some session_id =>
    if session_id = "" then ⟨Except.error SvcErr.sessionNotFound, false⟩
    else
      let is_data_collection := user_id = DATA_COLLECTION_USER
      let next_order := current_state.next_display_order
      if is_data_collection ∧ is_data_collection_complete next_order then
        ⟨Except.ok ProcResponse.diagnosis, false⟩
      else if ¬ is_data_collection ∧ next_order ≥ TOTAL_QUESTIONS questions_per_phase then
        ⟨Except.ok ProcResponse.diagnosis, false⟩
      else
        let total_questions :=
          if is_data_collection then DC_TOTAL_QUESTIONS
          else TOTAL_QUESTIONS questions_per_phase
        let new_state := wf_exec user_input current_state
        match new_state.messages.getLast? with
        | none => ⟨Except.error SvcErr.invalidResponse, true⟩
        | some last_message =>
          if last_message.content = "" then ⟨Except.error SvcErr.invalidResponse, true⟩
          else
            let next_order2 := new_state.next_display_order
            let progress := min ((next_order2 : Rat) / (total_questions : Rat)) 1
            let current_question_number := min (max next_order2 1) total_questions
            ⟨Except.ok (ProcResponse.question last_message.content progress
              current_question_number total_questions), true⟩

/-- Outcome of complete_assessment: the returned answered count or raised
error, plus whether close_session was called. -/
structure CompleteOutcome where
  result : Except SvcErr Nat
  session_closed : Bool
  deriving Repr, DecidableEq

/-- MBTIConversationService.complete_assessment
(mbti_conversation_service.py:420-495).  The session lookup indexes [0] of
the repository result: an empty list raises IndexError, which the catch-all
handler wraps into a generic AssessmentError; the explicit SessionNotFound
branch fires only for a falsy (empty-string) head.  Standard mode requires
answered >= TOTAL_QUESTIONS unless force; data-collection mode always
completes. -/
def complete_assessment (questions_per_phase : Nat) (user_id : String)
    (session_ids : List String) (current_state : WFState) (force : Bool) :
    CompleteOutcome :=
  match session_ids.head? with
  | none => ⟨Except.error SvcErr.assessmentError, false⟩
  | some session_id =>
    if session_id = "" then ⟨Except.error SvcErr.sessionNotFound, false⟩
    else
      let is_data_collection := user_id = DATA_COLLECTION_USER
      let answered_questions := current_state.next_display_order
      if is_data_collection then ⟨Except.ok answered_questions, true⟩
      else if ¬ force ∧ answered_questions < TOTAL_QUESTIONS questions_per_phase then
        ⟨Except.error (SvcErr.assessmentIncomplete answered_questions
          (TOTAL_QUESTIONS questions_per_phase)), false⟩
      else ⟨Except.ok answered_questions, true⟩

/-- Outcome of undo_last_answer: the returned (new next_display_order,
messages_removed) or raised error, plus the state passed to
update_conversation_state (none when the operation failed before
persisting). -/
structure UndoOutcome where
  result : Except SvcErr (Nat × Nat)
  persisted : Option WFState
  deriving Repr, DecidableEq

/-- MBTIConversationService.undo_last_answer
(mbti_conversation_service.py:541-636).  The session lookup indexes [0]
(empty list: IndexError wrapped into AssessmentError).  With
next_order < steps the typed InvalidResponse propagates before anything is
persisted; otherwise the last min(steps*2, len(messages)) messages are
removed, next_display_order is decremented by steps and the state is
persisted. -/
def undo_last_answer (user_id : String) (session_ids : List String)
    (current_state : WFState) (steps : Nat) : UndoOutcome :=
  match session_ids.head? with
  | none => ⟨Except.error SvcErr.assessmentError, none⟩
  | some session_id =>
    if session_id = "" then ⟨Except.error SvcErr.sessionNotFound, none⟩
    else
      let next_order := current_state.next_display_order
      if next_order < steps then ⟨Except.error SvcErr.invalidResponse, none⟩
      else
        let messages_to_remove := steps * 2
        let messages := current_state.messages
        let actual_messages_to_remove := min messages_to_remove messages.length
        let new_messages := messages.take (messages.length - actual_messages_to_remove)
        let new_next_order := next_order - steps
        let new_state :=
          { current_state with
            messages := new_messages,
            next_display_order := new_next_order }
        ⟨Except.ok (new_next_order, actual_messages_to_remove), some new_state⟩

/-- The conversation states a session's checkpoint can hold after the
operations the spec covers: the state persisted by the first round of
startConversation (empty user input, any element seed), by a
processUserResponse round on a reachable state (the gateway wraps the raw
input into one user message and the driver is called without an element id,
so the seed defaults to 1), and by a successful undo_last_answer.  The
service-level gates that merely restrict which of these calls happen (the
completion checks) are not needed for the invariant and are left out, which
only enlarges the set of states. -/
inductive ReachableState (questions_per_phase : Nat) (ports : GenPorts) : WFState → Prop where
  | start : ∀ element_seed : Nat,
      ReachableState questions_per_phase ports
        (run_workflow questions_per_phase ports none [Msg.mk "user" ""] element_seed)
  | respond : ∀ (st : WFState) (user_input : String),
      ReachableState questions_per_phase ports st →
      user_input ≠ "" →
      ReachableState questions_per_phase ports
        (run_workflow questions_per_phase ports (some st) [Msg.mk "user" user_input] 1)
  | undo : ∀ (st st2 : WFState) (steps : Nat) (user_id : String) (session_ids : List String),
      ReachableState questions_per_phase ports st →
      (undo_last_answer user_id session_ids st steps).persisted = some st2 →
      ReachableState questions_per_phase ports st2

lemma retry_first_ok {α : Type} (f : Nat → Except LLMErrKind α) (a : α)
    (h0 : f 0 = Except.ok a) : retry_on_llm_error f = (Except.ok a, []) := by
  simp [retry_on_llm_error, retryLoop, MAX_RETRIES, h0]

lemma retry_second_ok {α : Type} (f : Nat → Except LLMErrKind α) (a : α) (e0 : LLMErrKind)
    (hr0 : e0.retryable = true) (h0 : f 0 = Except.error e0) (h1 : f 1 = Except.ok a) :
    retry_on_llm_error f = (Except.ok a, [1]) := by
  norm_num [retry_on_llm_error, retryLoop, MAX_RETRIES, RETRY_DELAY, h0, h1, hr0]

/-- C1: for every phase size Q >= 1 and question order o, the scheduler
classifies o as a phase start iff o % Q == 0 (order 0 included), and assigns
personality element id (o // Q) % 4 + 1, an id in 1..4 that is constant on
each block of Q orders (block k gets k % 4 + 1) and cycles with period 4*Q,
i.e. the element ids cycle 1,2,3,4 in blocks of Q questions. -/
theorem c1_phase_scheduler (questions_per_phase order : Nat)
    (hQ : 1 ≤ questions_per_phase) :
    (is_first_question_of_phase questions_per_phase order = true ↔
      order % questions_per_phase = 0) ∧
    element_id_of_order questions_per_phase order =
      order / questions_per_phase % 4 + 1 ∧
    1 ≤ element_id_of_order questions_per_phase order ∧
    element_id_of_order questions_per_phase order ≤ 4 ∧
    (∀ k r : Nat, r < questions_per_phase →
      element_id_of_order questions_per_phase (k * questions_per_phase + r) = k % 4 + 1) ∧
    element_id_of_order questions_per_phase (order + 4 * questions_per_phase) =
      element_id_of_order questions_per_phase order := by
  refine ⟨?_, rfl, ?_, ?_, ?_, ?_⟩
  · simp only [is_first_question_of_phase, Bool.or_eq_true, beq_iff_eq]
    constructor
    · rintro (rfl | h)
      · exact Nat.zero_mod _
      · exact h
    · intro h
      exact Or.inr h
  · simp [element_id_of_order]
  · have h4 : order / questions_per_phase % 4 < 4 := Nat.mod_lt _ (by norm_num)
    simp only [element_id_of_order]
    omega
  · intro k r hr
    have hdiv : (k * questions_per_phase + r) / questions_per_phase = k := by
      rw [Nat.mul_comm k questions_per_phase, Nat.mul_add_div (by omega)]
      simp [Nat.div_eq_of_lt hr]
    simp [element_id_of_order, hdiv]
  · have hdiv : (order + 4 * questions_per_phase) / questions_per_phase =
        order / questions_per_phase + 4 := by
      rw [Nat.mul_comm 4 questions_per_phase, Nat.add_mul_div_left _ _ (by omega)]
    simp [element_id_of_order, hdiv, Nat.add_mod_right]

/-- Witness for c1_phase_scheduler at Q = 10, order = 25. -/
theorem c1_phase_scheduler_witness :
    1 ≤ 10 ∧
    ((is_first_question_of_phase 10 25 = true ↔ 25 % 10 = 0) ∧
    element_id_of_order 10 25 = 25 / 10 % 4 + 1 ∧
    1 ≤ element_id_of_order 10 25 ∧
    element_id_of_order 10 25 ≤ 4 ∧
    (∀ k r : Nat, r < 10 → element_id_of_order 10 (k * 10 + r) = k % 4 + 1) ∧
    element_id_of_order 10 (25 + 4 * 10) = element_id_of_order 10 25) :=
  ⟨by decide, c1_phase_scheduler 10 25 (by decide)⟩

/-- C3: the RetryPolicy wrapper.  A first failure classified Other propagates
immediately with no retry and no sleep; an immediate success performs no
sleep; failures classified RateLimit or Timeout (retryable) are retried with
back-off sleeps of 1.0s then 2.0s, for at most MAX_RETRIES = 3 total
attempts; after the third classified failure the last error propagates; in
particular two retryable failures followed by a success return that success
after exactly the two sleeps 1.0 and 2.0. -/
theorem c3_retry_policy {α : Type} (f : Nat → Except LLMErrKind α) (a : α)
    (e0 e1 e2 : LLMErrKind) :
    (f 0 = Except.error LLMErrKind.other →
      retry_on_llm_error f = (Except.error LLMErrKind.other, [])) ∧
    (f 0 = Except.ok a → retry_on_llm_error f = (Except.ok a, [])) ∧
    (e0.retryable = true → f 0 = Except.error e0 → f 1 = Except.ok a →
      retry_on_llm_error f = (Except.ok a, [1])) ∧
    (e0.retryable = true → f 0 = Except.error e0 →
      f 1 = Except.error LLMErrKind.other →
      retry_on_llm_error f = (Except.error LLMErrKind.other, [1])) ∧
    (e0.retryable = true → e1.retryable = true → f 0 = Except.error e0 →
      f 1 = Except.error e1 → f 2 = Except.ok a →
      retry_on_llm_error f = (Except.ok a, [1, 2])) ∧
    (e0.retryable = true → e1.retryable = true → f 0 = Except.error e0 →
      f 1 = Except.error e1 → f 2 = Except.error e2 →
      retry_on_llm_error f = (Except.error e2, [1, 2])) := by
  refine ⟨?_, ?_, ?_, ?_, ?_, ?_⟩
  · intro h0
    simp [retry_on_llm_error, retryLoop, MAX_RETRIES, h0, LLMErrKind.retryable]
  · intro h0
    exact retry_first_ok f a h0
  · intro hr0 h0 h1
    exact retry_second_ok f a e0 hr0 h0 h1
  · intro hr0 h0 h1
    norm_num [retry_on_llm_error, retryLoop, MAX_RETRIES, RETRY_DELAY, h0, h1, hr0,
      show LLMErrKind.other.retryable = false from rfl]
  · intro hr0 hr1 h0 h1 h2
    norm_num [retry_on_llm_error, retryLoop, MAX_RETRIES, RETRY_DELAY, BACKOFF_MULTIPLIER,
      h0, h1, h2, hr0, hr1]
  · intro hr0 hr1 h0 h1 h2
    norm_num [retry_on_llm_error, retryLoop, MAX_RETRIES, RETRY_DELAY, BACKOFF_MULTIPLIER,
      h0, h1, h2, hr0, hr1]

/-- Witness for c3_retry_policy: a call failing with RateLimit twice and then
succeeding returns the success after exactly the sleeps 1.0 and 2.0. -/
theorem c3_retry_policy_witness :
    LLMErrKind.rateLimit.retryable = true ∧
    retry_on_llm_error (fun attempt =>
      if attempt < 2 then Except.error LLMErrKind.rateLimit else Except.ok 7) =
      (Except.ok 7, [1, 2]) :=
  ⟨by decide,
    (c3_retry_policy (fun attempt =>
        if attempt < 2 then Except.error LLMErrKind.rateLimit else Except.ok 7) 7
        LLMErrKind.rateLimit LLMErrKind.rateLimit LLMErrKind.other).2.2.2.2.1
      (by decide) (by decide) rfl rfl rfl⟩

/-- Concrete generation ports used to evaluate the workflow on concrete
inputs. -/
def cPorts : GenPorts :=
  ⟨fun _ => "q1", fun _ _ _ => "gq", fun _ _ => "opt"⟩

/-- C4 counterexample: the state persisted by a fresh first round (an
in-progress session right after startConversation) has next_display_order = 1
and a single dangling question message; undoLastAnswer with steps = 1
satisfies next_display_order >= steps, yet removes only 1 trailing message,
not steps*2 = 2, because the source removes min(steps*2, len(messages)). -/
theorem c4_undo_counterexample :
    ReachableState 10 cPorts (run_workflow 10 cPorts none [Msg.mk "user" ""] 1) ∧
    (run_workflow 10 cPorts none [Msg.mk "user" ""] 1).next_display_order = 1 ∧
    (undo_last_answer "alice" ["s1"]
      (run_workflow 10 cPorts none [Msg.mk "user" ""] 1) 1).result =
      Except.ok (0, 1) ∧
    (1 : Nat) ≠ 1 * 2 :=
  ⟨ReachableState.start 1, by decide, by decide, by decide⟩

/-- C4 amended: for an in-progress session and steps >= 1, when
next_display_order >= steps the undo removes min(steps*2, message count)
trailing messages — exactly steps*2 whenever at least steps*2 messages exist
— decrements next_display_order by steps and persists exactly that state;
when steps > next_display_order it raises the typed InvalidResponse and
persists nothing. -/
theorem c4_undo_amended (user_id session_id : String) (rest : List String)
    (st : WFState) (steps : Nat) (hsid : session_id ≠ "") (hsteps : 1 ≤ steps) :
    (steps ≤ st.next_display_order →
      (undo_last_answer user_id (session_id :: rest) st steps).result =
        Except.ok (st.next_display_order - steps,
          min (steps * 2) st.messages.length) ∧
      (undo_last_answer user_id (session_id :: rest) st steps).persisted =
        some { st with
          messages := st.messages.take
            (st.messages.length - min (steps * 2) st.messages.length),
          next_display_order := st.next_display_order - steps } ∧
      (steps * 2 ≤ st.messages.length →
        (undo_last_answer user_id (session_id :: rest) st steps).result =
          Except.ok (st.next_display_order - steps, steps * 2))) ∧
    (st.next_display_order < steps →
      (undo_last_answer user_id (session_id :: rest) st steps).result =
        Except.error SvcErr.invalidResponse ∧
      (undo_last_answer user_id (session_id :: rest) st steps).persisted = none) := by
  constructor
  · intro hle
    have hnot : ¬ st.next_display_order < steps := not_lt.mpr hle
    refine ⟨?_, ?_, ?_⟩
    · simp [undo_last_answer, hsid, hnot]
    · simp [undo_last_answer, hsid, hnot]
    · intro h2
      simp [undo_last_answer, hsid, hnot, Nat.min_eq_left h2]
  · intro hlt
    constructor <;> simp [undo_last_answer, hsid, hlt]

/-- Witness for c4_undo_amended: next_display_order = 5, steps = 1 on a
9-message history yields order 4 and removes exactly 2 trailing messages. -/
theorem c4_undo_amended_witness :
    (undo_last_answer "alice" ["s1"]
      (WFState.mk "ask" (List.replicate 9 (Msg.mk "user" "x")) [] 1 5 none []) 1).result =
      Except.ok (5 - 1, 1 * 2) :=
  ((c4_undo_amended "alice" "s1" []
      (WFState.mk "ask" (List.replicate 9 (Msg.mk "user" "x")) [] 1 5 none []) 1
      (by decide) (by decide)).1 (by decide)).2.2 (by decide)

/-- C5: processUserResponse requires an in_progress session (raising
SessionNotFound otherwise); for a session whose state has
next_display_order >= total (the mode-appropriate total: Q*4 in standard
mode, 50 in data-collection mode) it returns the diagnosis-phase response
without invoking the generation workflow, hence leaving the conversation
state unchanged. -/
theorem c5_process_gate (questions_per_phase : Nat)
    (wf_exec : String → WFState → WFState) (user_input user_id session_id : String)
    (rest : List String) (st : WFState) :
    (process_user_response questions_per_phase wf_exec user_input user_id [] st =
      ⟨Except.error SvcErr.sessionNotFound, false⟩) ∧
    (session_id ≠ "" →
      (if user_id = DATA_COLLECTION_USER then DC_TOTAL_QUESTIONS
        else TOTAL_QUESTIONS questions_per_phase) ≤ st.next_display_order →
      process_user_response questions_per_phase wf_exec user_input user_id
          (session_id :: rest) st =
        ⟨Except.ok ProcResponse.diagnosis, false⟩) := by
  constructor
  · rfl
  · intro hsid htot
    by_cases hdc : user_id = DATA_COLLECTION_USER
    · have hcomp : is_data_collection_complete st.next_display_order = true := by
        simp only [hdc, if_pos] at htot
        simp [is_data_collection_complete, htot]
      simp [process_user_response, hsid, hdc, hcomp]
    · have htot2 : TOTAL_QUESTIONS questions_per_phase ≤ st.next_display_order := by
        simpa [hdc] using htot
      simp [process_user_response, hsid, hdc, htot2]

/-- Witness for c5_process_gate: a standard user at order 40 with Q = 10
(total = 40) receives the diagnosis response with no workflow call. -/
theorem c5_process_gate_witness :
    process_user_response 10 (fun _ s => s) "hi" "alice" ["s1"]
      (WFState.mk "ask" [] [] 1 40 none []) =
      ⟨Except.ok ProcResponse.diagnosis, false⟩ :=
  (c5_process_gate 10 (fun _ s => s) "hi" "alice" "s1" []
      (WFState.mk "ask" [] [] 1 40 none [])).2 (by decide) (by decide)

/-- C6: completeAssessment in standard mode with the default force = False
raises AssessmentIncomplete carrying the answered and required counts when
next_display_order < TOTAL_QUESTIONS, leaving the session open; when
answered >= total, and always in data-collection mode, it closes the session
and returns the answered count. -/
theorem c6_complete_assessment (questions_per_phase : Nat)
    (user_id session_id : String) (rest : List String) (st : WFState)
    (hsid : session_id ≠ "") :
    (user_id ≠ DATA_COLLECTION_USER →
      st.next_display_order < TOTAL_QUESTIONS questions_per_phase →
      complete_assessment questions_per_phase user_id (session_id :: rest) st false =
        ⟨Except.error (SvcErr.assessmentIncomplete st.next_display_order
          (TOTAL_QUESTIONS questions_per_phase)), false⟩) ∧
    (user_id ≠ DATA_COLLECTION_USER →
      TOTAL_QUESTIONS questions_per_phase ≤ st.next_display_order →
      complete_assessment questions_per_phase user_id (session_id :: rest) st false =
        ⟨Except.ok st.next_display_order, true⟩) ∧
    (user_id = DATA_COLLECTION_USER →
      complete_assessment questions_per_phase user_id (session_id :: rest) st false =
        ⟨Except.ok st.next_display_order, true⟩) := by
  refine ⟨?_, ?_, ?_⟩
  · intro hdc hlt
    simp [complete_assessment, hsid, hdc, hlt]
  · intro hdc hge
    have hnot : ¬ st.next_display_order < TOTAL_QUESTIONS questions_per_phase :=
      not_lt.mpr hge
    simp [complete_assessment, hsid, hdc, hnot]
  · intro hdc
    simp [complete_assessment, hsid, hdc]

/-- Witness for c6_complete_assessment: user alice at order 7 with Q = 10
(total = 40) gets AssessmentIncomplete with answered = 7, required = 40. -/
theorem c6_complete_assessment_witness :
    complete_assessment 10 "alice" ["s1"] (WFState.mk "ask" [] [] 1 7 none []) false =
      ⟨Except.error (SvcErr.assessmentIncomplete 7 (TOTAL_QUESTIONS 10)), false⟩ :=
  (c6_complete_assessment 10 "alice" "s1" [] (WFState.mk "ask" [] [] 1 7 none [])
      (by decide)).1 (by decide) (by decide)

/-- C10: for a user with no in_progress session, complete_assessment and
undo_last_answer never raise SessionNotFound: the [0] lookup on the empty
session list raises IndexError, which the catch-all wraps into the generic
AssessmentError; and whenever every returned session id is truthy
(nonempty), the explicit SessionNotFound branches of these two operations
never fire. -/
theorem c10_session_lookup (questions_per_phase : Nat) (user_id : String)
    (st : WFState) (steps : Nat) (force : Bool) (session_ids : List String) :
    (complete_assessment questions_per_phase user_id [] st force =
      ⟨Except.error SvcErr.assessmentError, false⟩) ∧
    (undo_last_answer user_id [] st steps =
      ⟨Except.error SvcErr.assessmentError, none⟩) ∧
    ((∀ s ∈ session_ids, s ≠ "") →
      (complete_assessment questions_per_phase user_id session_ids st force).result ≠
        Except.error SvcErr.sessionNotFound ∧
      (undo_last_answer user_id session_ids st steps).result ≠
        Except.error SvcErr.sessionNotFound) := by
  refine ⟨rfl, rfl, ?_⟩
  intro htruthy
  cases session_ids with
  | nil =>
    constructor <;> intro h <;> simp [complete_assessment, undo_last_answer] at h
  | cons sid rest =>
    have hsid : sid ≠ "" := htruthy sid (List.mem_cons_self sid rest)
    constructor
    · intro h
      simp only [complete_assessment, List.head?_cons] at h
      rw [if_neg hsid] at h
      split_ifs at h <;> simp at h
    · intro h
      simp only [undo_last_answer, List.head?_cons] at h
      rw [if_neg hsid] at h
      split_ifs at h <;> simp at h

/-- Witness for c10_session_lookup: with the one-element truthy session list
["s1"], neither operation reports SessionNotFound. -/
theorem c10_session_lookup_witness :
    (complete_assessment 10 "alice" ["s1"]
      (WFState.mk "ask" [] [] 1 0 none []) false).result ≠
      Except.error SvcErr.sessionNotFound :=
  ((c10_session_lookup 10 "alice" (WFState.mk "ask" [] [] 1 0 none []) 1 false
      ["s1"]).2.2 (by decide)).1

lemma generate_question_node_effects (questions_per_phase : Nat) (ports : GenPorts)
    (st : WFState) :
    ∃ q, (generate_question_node questions_per_phase ports st).messages =
        st.messages ++ [Msg.mk "assistant" q] ∧
      (generate_question_node questions_per_phase ports st).pending_question = some q ∧
      (generate_question_node questions_per_phase ports st).next_display_order =
        st.next_display_order + 1 ∧
      (generate_question_node questions_per_phase ports st).personality_element_id =
        st.personality_element_id ∧
      (generate_question_node questions_per_phase ports st).options = st.options ∧
      (generate_question_node questions_per_phase ports st).phase = st.phase := by
  by_cases h : (st.next_display_order == 0 ||
      st.next_display_order % questions_per_phase == 0) = true
  · exact ⟨ports.get_initial_question st.personality_element_id,
      by simp [generate_question_node, h]⟩
  · refine ⟨ports.generate_question
      (organize_chat_history (filter_messages_by_phase st.messages
        ((st.next_display_order : Int) + 1) questions_per_phase))
      st.personality_element_id st.next_display_order, ?_⟩
    simp [generate_question_node, h]

lemma generate_options_node_effects (questions_per_phase : Nat) (ports : GenPorts)
    (st : WFState) :
    (generate_options_node questions_per_phase ports st).messages = st.messages ∧
    (generate_options_node questions_per_phase ports st).pending_question =
      st.pending_question ∧
    (generate_options_node questions_per_phase ports st).next_display_order =
      st.next_display_order ∧
    (generate_options_node questions_per_phase ports st).personality_element_id =
      st.personality_element_id ∧
    (generate_options_node questions_per_phase ports st).phase = st.phase :=
  ⟨rfl, rfl, rfl, rfl, rfl⟩

/-- C7 counterexample: a fresh-session round seeded with element id 3 (as the
data-collection startConversation path does) stores personality_element_id =
3, while the PhaseScheduler formula for the order of the question just
generated (order 0) gives (0 // 10) % 4 + 1 = 1.  So the claim that after
every round the stored element id equals the formula fails: the graph nodes
pass the element id through unchanged, and only the continuing-state path of
run_workflow recomputes it. -/
theorem c7_element_counterexample :
    (run_workflow 10 cPorts none [] 3).next_display_order = 1 ∧
    (run_workflow 10 cPorts none [] 3).personality_element_id = 3 ∧
    element_id_of_order 10 (1 - 1) = 1 ∧
    (3 : Nat) ≠ 1 :=
  ⟨by decide, by decide, by decide, by decide⟩

/-- C7 amended: in both branches of question generation a round appends the
produced text as a new assistant message, sets pending_question, and
increments next_display_order by exactly 1.  The stored
personality_element_id is recomputed via the PhaseScheduler formula by
run_workflow only for rounds continuing an existing state — there it equals
element_id_of_order for the order of the question generated, including at
phase boundaries — while a fresh-session round stores the caller-provided
seed, which matches the formula only when the seed is 1. -/
theorem c7_round_effects (questions_per_phase : Nat) (ports : GenPorts)
    (es : WFState) (user_messages : List Msg) (seed : Nat) :
    (∃ q, (run_workflow questions_per_phase ports (some es) user_messages seed).messages =
        (es.messages ++ user_messages.filter (fun m => m.content != "")) ++
          [Msg.mk "assistant" q] ∧
      (run_workflow questions_per_phase ports (some es) user_messages seed).pending_question =
        some q) ∧
    (run_workflow questions_per_phase ports (some es) user_messages seed).next_display_order =
      es.next_display_order + 1 ∧
    (run_workflow questions_per_phase ports (some es) user_messages seed).personality_element_id =
      element_id_of_order questions_per_phase es.next_display_order ∧
    (∃ q, (run_workflow questions_per_phase ports none user_messages seed).messages =
        user_messages.filter (fun m => m.content != "") ++ [Msg.mk "assistant" q] ∧
      (run_workflow questions_per_phase ports none user_messages seed).pending_question =
        some q) ∧
    (run_workflow questions_per_phase ports none user_messages seed).next_display_order = 1 ∧
    (run_workflow questions_per_phase ports none user_messages seed).personality_element_id =
      seed := by
  have hoc := generate_options_node_effects
  have hqc := generate_question_node_effects
  unfold run_workflow
  obtain ⟨q1, hm1, hp1, ho1, he1, -, -⟩ :=
    hqc questions_per_phase ports
      { es with
        messages := es.messages ++ user_messages.filter (fun m => m.content != ""),
        personality_element_id :=
          es.next_display_order / questions_per_phase % 4 + 1 }
  obtain ⟨q2, hm2, hp2, ho2, he2, -, -⟩ :=
    hqc questions_per_phase ports
      { phase := "ask",
        messages := user_messages.filter (fun m => m.content != ""),
        answers := [],
        personality_element_id := seed,
        next_display_order := 0,
        pending_question := none,
        options := [] }
  refine ⟨⟨q1, ?_, ?_⟩, ?_, ?_, ⟨q2, ?_, ?_⟩, ?_, ?_⟩ <;>
    simp_all [generate_options_node_effects, element_id_of_order,
      (hoc questions_per_phase ports _).1, (hoc questions_per_phase ports _).2.1,
      (hoc questions_per_phase ports _).2.2.1, (hoc questions_per_phase ports _).2.2.2.1]

/-- C8: each successful round produces exactly 3 answer-option strings,
generated sequentially: the i-th call receives exactly the i-1 options
generated so far in this round, and the state keeps only [options_list],
replacing whatever the options channel held before (never accumulating
across rounds).  Each call is individually wrapped by retry_on_llm_error:
a retryable failure of the second call followed by a success still yields
the same 3 options after a single 1.0s back-off, without disturbing the
other calls.  At the gateway, an empty so-far list is rendered as the fixed
placeholder string, a nonempty one as the newline join, and role-prefix
artifacts ("...:") are stripped from the raw model output. -/
theorem c8_option_generation (questions_per_phase : Nat) (st : WFState)
    (try_gen : String → List String → Nat → Except LLMErrKind String)
    (g : List String → String) (o1 o2 o3 : String) :
    ((∀ t acc, try_gen t acc 0 = Except.ok (g acc)) →
      generate_options_node_r questions_per_phase try_gen st =
        (Except.ok { st with options := [[g [], g [g []], g [g [], g [g []]]]] }, [])) ∧
    ((∀ t, try_gen t [] 0 = Except.ok o1) →
      (∀ t, try_gen t [o1] 0 = Except.error LLMErrKind.rateLimit) →
      (∀ t, try_gen t [o1] 1 = Except.ok o2) →
      (∀ t, try_gen t [o1, o2] 0 = Except.ok o3) →
      generate_options_node_r questions_per_phase try_gen st =
        (Except.ok { st with options := [[o1, o2, o3]] }, [1])) ∧
    combine_options_list [] = "まだ候補がありません" ∧
    (∀ l : List String, l ≠ [] →
      combine_options_list l = String.intercalate "\n" l) ∧
    (∀ (prompt_format : String → String → String) (messages : String)
      (existing_options : List String),
      gateway_generate_options prompt_format (fun _ => "assistant: 選択肢") messages
        existing_options = "選択肢") := by
  refine ⟨?_, ?_, rfl, ?_, ?_⟩
  · intro hok
    have rA := retry_first_ok _ _ (hok (organize_chat_history
      (filter_messages_by_phase st.messages (st.next_display_order : Int)
        questions_per_phase)) [])
    have rB := retry_first_ok _ _ (hok (organize_chat_history
      (filter_messages_by_phase st.messages (st.next_display_order : Int)
        questions_per_phase)) [g []])
    have rC := retry_first_ok _ _ (hok (organize_chat_history
      (filter_messages_by_phase st.messages (st.next_display_order : Int)
        questions_per_phase)) [g [], g [g []]])
    simp only [generate_options_node_r, optionsLoopR, rA, rB, rC]
    simp [rB, rC]
  · intro h1 h2 h3 h4
    have r1 := retry_first_ok _ _ (h1 (organize_chat_history
      (filter_messages_by_phase st.messages (st.next_display_order : Int)
        questions_per_phase)))
    have r2 := retry_second_ok _ o2 LLMErrKind.rateLimit rfl
      (h2 (organize_chat_history (filter_messages_by_phase st.messages
        (st.next_display_order : Int) questions_per_phase)))
      (h3 (organize_chat_history (filter_messages_by_phase st.messages
        (st.next_display_order : Int) questions_per_phase)))
    have r3 := retry_first_ok _ _ (h4 (organize_chat_history
      (filter_messages_by_phase st.messages (st.next_display_order : Int)
        questions_per_phase)))
    simp only [generate_options_node_r, optionsLoopR, r1, r2, r3]
    simp [r2, r3]
  · intro l hl
    simp [combine_options_list, List.length_eq_zero, hl]
  · intro prompt_format messages existing_options
    rfl

/-- Witness for c8_option_generation: a concrete oracle whose three calls
succeed at the first attempt yields exactly the three sequentially built
options and an untouched-by-history options channel. -/
theorem c8_option_generation_witness :
    generate_options_node_r 10
      (fun _ acc _ => Except.ok (String.intercalate "," acc ++ "x"))
      (WFState.mk "ask" [] [] 1 1 none [["old"]]) =
      (Except.ok { WFState.mk "ask" [] [] 1 1 none [["old"]] with
        options := [[String.intercalate "," [] ++ "x",
          String.intercalate "," [String.intercalate "," [] ++ "x"] ++ "x",
          String.intercalate ","
            [String.intercalate "," [] ++ "x",
             String.intercalate "," [String.intercalate "," [] ++ "x"] ++ "x"] ++ "x"]] },
        []) :=
  (c8_option_generation 10 (WFState.mk "ask" [] [] 1 1 none [["old"]])
      (fun _ acc _ => Except.ok (String.intercalate "," acc ++ "x"))
      (fun acc => String.intercalate "," acc ++ "x") "a" "b" "c").1
    (fun _ _ => rfl)

lemma filter_step_assistant_in (ps n qc : Nat) (acc : List Msg) (m : Msg)
    (hm : m.role = "assistant") (h1 : ps ≤ qc + 1) (h2 : qc + 1 ≤ n) :
    filter_step ps n (qc, acc) m = (qc + 1, acc ++ [m]) := by
  simp [filter_step, hm, h1, h2]

lemma filter_step_assistant_out (ps n qc : Nat) (acc : List Msg) (m : Msg)
    (hm : m.role = "assistant") (h : ¬ (ps ≤ qc + 1 ∧ qc + 1 ≤ n)) :
    filter_step ps n (qc, acc) m = (qc + 1, acc) := by
  simp [filter_step, hm, h]

lemma filter_step_user_in (ps n qc : Nat) (acc : List Msg) (m : Msg)
    (hm : ¬ m.role = "assistant")
    (hu : m.role = "user" ∧ acc.getLast?.map Msg.role = some "assistant") :
    filter_step ps n (qc, acc) m = (qc, acc ++ [m]) := by
  simp [filter_step, hm, hu]

lemma filter_step_other (ps n qc : Nat) (acc : List Msg) (m : Msg)
    (hm : ¬ m.role = "assistant")
    (hu : ¬ (m.role = "user" ∧ acc.getLast?.map Msg.role = some "assistant")) :
    filter_step ps n (qc, acc) m = (qc, acc) := by
  rw [filter_step, if_neg hm, if_neg hu]

lemma foldl_filter_step_count (ps n : Nat) (messages : List Msg) :
    ∀ (qc : Nat) (acc : List Msg),
      (messages.foldl (filter_step ps n) (qc, acc)).1 = qc + assistantCount messages := by
  induction messages with
  | nil => intro qc acc; simp [assistantCount]
  | cons m rest ih =>
    intro qc acc
    rw [List.foldl_cons]
    by_cases hm : m.role = "assistant"
    · have hcount : assistantCount (m :: rest) = assistantCount rest + 1 := by
        simp [assistantCount, List.filter_cons, hm]
      by_cases hin : ps ≤ qc + 1 ∧ qc + 1 ≤ n
      · rw [filter_step_assistant_in ps n qc acc m hm hin.1 hin.2, ih]
        omega
      · rw [filter_step_assistant_out ps n qc acc m hm hin, ih]
        omega
    · have hcount : assistantCount (m :: rest) = assistantCount rest := by
        simp [assistantCount, List.filter_cons, hm]
      by_cases hu : m.role = "user" ∧ acc.getLast?.map Msg.role = some "assistant"
      · rw [filter_step_user_in ps n qc acc m hm hu, ih]
        omega
      · rw [filter_step_other ps n qc acc m hm hu, ih]
        omega

lemma foldl_filter_step_prefix (ps n : Nat) (messages : List Msg) :
    ∀ (qc : Nat) (acc : List Msg),
      ∃ t, (messages.foldl (filter_step ps n) (qc, acc)).2 = acc ++ t := by
  induction messages with
  | nil => intro qc acc; exact ⟨[], by simp⟩
  | cons m rest ih =>
    intro qc acc
    rw [List.foldl_cons]
    by_cases hm : m.role = "assistant"
    · by_cases hin : ps ≤ qc + 1 ∧ qc + 1 ≤ n
      · rw [filter_step_assistant_in ps n qc acc m hm hin.1 hin.2]
        obtain ⟨t, ht⟩ := ih (qc + 1) (acc ++ [m])
        exact ⟨m :: t, by simp [ht]⟩
      · rw [filter_step_assistant_out ps n qc acc m hm hin]
        exact ih (qc + 1) acc
    · by_cases hu : m.role = "user" ∧ acc.getLast?.map Msg.role = some "assistant"
      · rw [filter_step_user_in ps n qc acc m hm hu]
        obtain ⟨t, ht⟩ := ih qc (acc ++ [m])
        exact ⟨m :: t, by simp [ht]⟩
      · rw [filter_step_other ps n qc acc m hm hu]
        exact ih qc acc

lemma foldl_filter_step_assistants (ps n : Nat) (messages : List Msg) :
    ∀ (qc : Nat) (acc : List Msg),
      assistantFilter (messages.foldl (filter_step ps n) (qc, acc)).2 =
        assistantFilter acc ++
          ((tagAssistants messages qc).filter
            (fun p => decide (ps ≤ p.1) && decide (p.1 ≤ n))).map Prod.snd := by
  induction messages with
  | nil => intro qc acc; simp [tagAssistants]
  | cons m rest ih =>
    intro qc acc
    rw [List.foldl_cons]
    by_cases hm : m.role = "assistant"
    · have htag : tagAssistants (m :: rest) qc = (qc + 1, m) :: tagAssistants rest (qc + 1) := by
        simp [tagAssistants, hm]
      by_cases hin : ps ≤ qc + 1 ∧ qc + 1 ≤ n
      · rw [filter_step_assistant_in ps n qc acc m hm hin.1 hin.2, ih, htag]
        have hacc : assistantFilter (acc ++ [m]) = assistantFilter acc ++ [m] := by
          simp [assistantFilter, List.filter_append, hm]
        rw [hacc]
        simp [hin.1, hin.2]
      · rw [filter_step_assistant_out ps n qc acc m hm hin, ih, htag]
        have hfalse : (decide (ps ≤ qc + 1) && decide (qc + 1 ≤ n)) = false := by
          rcases Decidable.not_and_iff_or_not.mp hin with h | h <;> simp [h]
        simp [List.filter_cons, hfalse]
    · have htag : tagAssistants (m :: rest) qc = tagAssistants rest qc := by
        simp [tagAssistants, hm]
      by_cases hu : m.role = "user" ∧ acc.getLast?.map Msg.role = some "assistant"
      · rw [filter_step_user_in ps n qc acc m hm hu, ih, htag]
        have hacc : assistantFilter (acc ++ [m]) = assistantFilter acc := by
          simp [assistantFilter, List.filter_append, hm]
        rw [hacc]
      · rw [filter_step_other ps n qc acc m hm hu, ih, htag]

lemma foldl_filter_step_all_before (ps n : Nat) (messages : List Msg) :
    ∀ qc : Nat, qc + assistantCount messages < ps →
      (messages.foldl (filter_step ps n) (qc, [])).2 = [] := by
  induction messages with
  | nil => intro qc _; rfl
  | cons m rest ih =>
    intro qc h
    rw [List.foldl_cons]
    by_cases hm : m.role = "assistant"
    · have hcount : assistantCount (m :: rest) = assistantCount rest + 1 := by
        simp [assistantCount, List.filter_cons, hm]
      have h1 : ¬ (ps ≤ qc + 1 ∧ qc + 1 ≤ n) := by omega
      rw [filter_step_assistant_out ps n qc [] m hm h1]
      exact ih (qc + 1) (by omega)
    · have hcount : assistantCount (m :: rest) = assistantCount rest := by
        simp [assistantCount, List.filter_cons, hm]
      have hu : ¬ (m.role = "user" ∧
          (([] : List Msg).getLast?.map Msg.role = some "assistant")) := by
        simp
      rw [filter_step_other ps n qc [] m hm hu]
      exact ih qc (by omega)

lemma filter_messages_by_phase_pos (messages : List Msg) (n : Int) (Q : Nat)
    (hn : 0 < n) :
    filter_messages_by_phase messages n Q =
      (messages.foldl (filter_step (phase_start_of n.toNat Q) n.toNat) (0, [])).2 := by
  rw [filter_messages_by_phase, if_neg (not_le.mpr hn)]

lemma foldl_filter_step_pairing (ps n : Nat) (pre post : List Msg) (a u : Msg)
    (ha : a.role = "assistant") (hu : u.role = "user")
    (h1 : ps ≤ assistantCount pre + 1) (h2 : assistantCount pre + 1 ≤ n) :
    ∃ l1 l2, ((pre ++ a :: u :: post).foldl (filter_step ps n) (0, [])).2 =
      l1 ++ a :: u :: l2 := by
  rw [List.foldl_append, List.foldl_cons, List.foldl_cons]
  have hfst : (pre.foldl (filter_step ps n) (0, [])).1 = assistantCount pre := by
    simpa using foldl_filter_step_count ps n pre 0 []
  have stepA : filter_step ps n (pre.foldl (filter_step ps n) (0, [])) a =
      ((pre.foldl (filter_step ps n) (0, [])).1 + 1,
        (pre.foldl (filter_step ps n) (0, [])).2 ++ [a]) :=
    filter_step_assistant_in ps n _ _ a ha (by omega) (by omega)
  rw [stepA]
  have hnotA : ¬ u.role = "assistant" := by simp [hu]
  have stepU : filter_step ps n
      ((pre.foldl (filter_step ps n) (0, [])).1 + 1,
        (pre.foldl (filter_step ps n) (0, [])).2 ++ [a]) u =
      ((pre.foldl (filter_step ps n) (0, [])).1 + 1,
        ((pre.foldl (filter_step ps n) (0, [])).2 ++ [a]) ++ [u]) :=
    filter_step_user_in ps n _ _ u hnotA ⟨hu, by simp [List.getLast?_concat, ha]⟩
  rw [stepU]
  obtain ⟨t, ht⟩ := foldl_filter_step_prefix ps n post
    ((pre.foldl (filter_step ps n) (0, [])).1 + 1)
    (((pre.foldl (filter_step ps n) (0, [])).2 ++ [a]) ++ [u])
  refine ⟨(pre.foldl (filter_step ps n) (0, [])).2, t, ?_⟩
  simp only [List.append_assoc, List.singleton_append, List.cons_append] at ht ⊢
  exact ht

/-- C2 counterexample: for Q = 10 the target number n = 1 is a phase-start
number (phase_start_of 1 10 = 1), and the message list consists of exactly
one assistant message, the n-th; the claim requires the empty list and
forbids including the n-th assistant message, yet the filter returns that
very message: the source includes running indices up to and including n,
not n-1. -/
theorem c2_filter_counterexample :
    phase_start_of 1 10 = 1 ∧
    assistantCount [Msg.mk "assistant" "q1"] = 1 ∧
    filter_messages_by_phase [Msg.mk "assistant" "q1"] 1 10 =
      [Msg.mk "assistant" "q1"] :=
  ⟨by decide, by decide, by decide⟩

/-- C2 amended: filterByPhase returns [] for n <= 0; an assistant message is
included iff its running index lies in [phase_start, n] (so the n-th
assistant message of msgs is included when present, and the (n+1)-th or any
later one never is); for a phase-start n the result is empty provided msgs
holds fewer than n assistant messages (when msgs holds n or more, the window
contains the assistant messages with index in [phase_start, n], e.g. the
just-generated canned question at the options-generation call site); and
every included assistant message is immediately followed by its paired user
message when one is present. -/
theorem c2_filter_by_phase (messages : List Msg) (n : Int) (Q : Nat) (hQ : 1 ≤ Q) :
    (n ≤ 0 → filter_messages_by_phase messages n Q = []) ∧
    (0 < n → assistantCount messages < n.toNat → (n.toNat - 1) % Q = 0 →
      filter_messages_by_phase messages n Q = []) ∧
    (0 < n →
      assistantFilter (filter_messages_by_phase messages n Q) =
        ((tagAssistants messages 0).filter
          (fun p => decide (phase_start_of n.toNat Q ≤ p.1) &&
            decide (p.1 ≤ n.toNat))).map Prod.snd) ∧
    (∀ pre post : List Msg, ∀ a u : Msg, 0 < n →
      messages = pre ++ a :: u :: post →
      a.role = "assistant" → u.role = "user" →
      phase_start_of n.toNat Q ≤ assistantCount pre + 1 →
      assistantCount pre + 1 ≤ n.toNat →
      ∃ l1 l2, filter_messages_by_phase messages n Q = l1 ++ a :: u :: l2) := by
  refine ⟨?_, ?_, ?_, ?_⟩
  · intro hn
    rw [filter_messages_by_phase, if_pos hn]
  · intro hn hcnt hps
    rw [filter_messages_by_phase_pos _ _ _ hn]
    have htn : 1 ≤ n.toNat := by omega
    have hstart : phase_start_of n.toNat Q = n.toNat := by
      have hdvd : Q ∣ n.toNat - 1 := Nat.dvd_of_mod_eq_zero hps
      simp only [phase_start_of, current_phase_of, Nat.add_sub_cancel]
      rw [Nat.div_mul_cancel hdvd]
      omega
    apply foldl_filter_step_all_before
    omega
  · intro hn
    rw [filter_messages_by_phase_pos _ _ _ hn]
    simpa [assistantFilter] using
      foldl_filter_step_assistants (phase_start_of n.toNat Q) n.toNat messages 0 []
  · intro pre post a u hn hmsgs ha hu hps hn2
    subst hmsgs
    rw [filter_messages_by_phase_pos _ _ _ hn]
    exact foldl_filter_step_pairing _ _ pre post a u ha hu hps hn2

/-- Witness for c2_filter_by_phase: with Q = 10 the phase-start target n = 11
on a two-question history (fewer than 11 assistant messages) yields the
empty context window. -/
theorem c2_filter_by_phase_witness :
    filter_messages_by_phase
      [Msg.mk "assistant" "q1", Msg.mk "user" "a1",
       Msg.mk "assistant" "q2", Msg.mk "user" "a2"] 11 10 = [] :=
  (c2_filter_by_phase
      [Msg.mk "assistant" "q1", Msg.mk "user" "a1",
       Msg.mk "assistant" "q2", Msg.mk "user" "a2"] 11 10 (by decide)).2.1
    (by decide) (by decide) (by decide)

lemma run_workflow_shape_fresh (Q : Nat) (ports : GenPorts)
    (user_messages : List Msg) (seed : Nat) :
    (run_workflow Q ports none user_messages seed).next_display_order = 1 ∧
    (run_workflow Q ports none user_messages seed).messages.length =
      (user_messages.filter (fun m => m.content != "")).length + 1 := by
  obtain ⟨q, hm, -, ho, -, -, -⟩ := generate_question_node_effects Q ports
    { phase := "ask",
      messages := user_messages.filter (fun m => m.content != ""),
      answers := [],
      personality_element_id := seed,
      next_display_order := 0,
      pending_question := none,
      options := [] }
  have hoc := generate_options_node_effects Q ports
    (generate_question_node Q ports
      { phase := "ask",
        messages := user_messages.filter (fun m => m.content != ""),
        answers := [],
        personality_element_id := seed,
        next_display_order := 0,
        pending_question := none,
        options := [] })
  constructor
  · show (generate_options_node Q ports _).next_display_order = 1
    rw [hoc.2.2.1, ho]
  · show (generate_options_node Q ports _).messages.length = _
    rw [hoc.1, hm]
    simp

lemma run_workflow_shape_cont (Q : Nat) (ports : GenPorts) (es : WFState)
    (user_messages : List Msg) (seed : Nat) :
    (run_workflow Q ports (some es) user_messages seed).next_display_order =
      es.next_display_order + 1 ∧
    (run_workflow Q ports (some es) user_messages seed).messages.length =
      es.messages.length + (user_messages.filter (fun m => m.content != "")).length + 1 := by
  obtain ⟨q, hm, -, ho, -, -, -⟩ := generate_question_node_effects Q ports
    { es with
      messages := es.messages ++ user_messages.filter (fun m => m.content != ""),
      personality_element_id := es.next_display_order / Q % 4 + 1 }
  have hoc := generate_options_node_effects Q ports
    (generate_question_node Q ports
      { es with
        messages := es.messages ++ user_messages.filter (fun m => m.content != ""),
        personality_element_id := es.next_display_order / Q % 4 + 1 })
  constructor
  · show (generate_options_node Q ports _).next_display_order = _
    rw [hoc.2.2.1, ho]
  · show (generate_options_node Q ports _).messages.length = _
    rw [hoc.1, hm]
    simp only [List.length_append, List.length_cons, List.length_nil]

/-- C9 counterexample: the state persisted by the very first round (fresh
startConversation, reachable by construction) has next_display_order = 1 and
a single message (the dangling question), so its message count is neither
2 x next_display_order = 2 nor 2 x next_display_order + 1 = 3; the claimed
invariant fails on the first reachable state that follows session
creation. -/
theorem c9_invariant_counterexample :
    ReachableState 10 cPorts (run_workflow 10 cPorts none [Msg.mk "user" ""] 1) ∧
    (run_workflow 10 cPorts none [Msg.mk "user" ""] 1).messages.length = 1 ∧
    (run_workflow 10 cPorts none [Msg.mk "user" ""] 1).next_display_order = 1 ∧
    (1 : Nat) ≠ 2 * 1 ∧ (1 : Nat) ≠ 2 * 1 + 1 :=
  ⟨ReachableState.start 1, by decide, by decide, by decide, by decide⟩

/-- C9 amended: in every ChatState reachable through session creation, round
execution with nonempty user input, and undoLastAnswer, the message count is
2 x next_display_order (no dangling question: order 0, or after answering a
question that was never re-asked) or 2 x next_display_order - 1 (one
dangling unanswered question), i.e. message count + 1 = 2 x order; the
claimed 2 x order (+ 1) does not hold, being off by the one question whose
answer is not yet part of the history. -/
theorem c9_message_count_invariant (Q : Nat) (ports : GenPorts) (st : WFState)
    (h : ReachableState Q ports st) :
    st.messages.length = 2 * st.next_display_order ∨
    st.messages.length + 1 = 2 * st.next_display_order := by
  induction h with
  | start seed =>
    have hs := run_workflow_shape_fresh Q ports [Msg.mk "user" ""] seed
    have hf : (([Msg.mk "user" ""]).filter (fun m => m.content != "")).length = 0 := rfl
    rw [hs.1, hs.2, hf]
    omega
  | respond st' input hr hne ih =>
    have hs := run_workflow_shape_cont Q ports st' [Msg.mk "user" input] 1
    have hf : (([Msg.mk "user" input]).filter (fun m => m.content != "")).length = 1 := by
      simp [hne]
    rw [hs.1, hs.2, hf]
    omega
  | undo st' st2 steps user_id session_ids hr hundo ih =>
    cases session_ids with
    | nil => simp [undo_last_answer] at hundo
    | cons sid rest =>
      by_cases hsid : sid = ""
      · simp [undo_last_answer, hsid] at hundo
      · by_cases hlt : st'.next_display_order < steps
        · simp [undo_last_answer, hsid, hlt] at hundo
        · simp only [undo_last_answer, List.head?_cons, if_neg hsid, if_neg hlt,
            Option.some.injEq] at hundo
          subst hundo
          simp only [List.length_take]
          omega

/-- Witness for c9_message_count_invariant at the state reached by a fresh
first round. -/
theorem c9_message_count_invariant_witness :
    (run_workflow 10 cPorts none [Msg.mk "user" ""] 1).messages.length =
      2 * (run_workflow 10 cPorts none [Msg.mk "user" ""] 1).next_display_order ∨
    (run_workflow 10 cPorts none [Msg.mk "user" ""] 1).messages.length + 1 =
      2 * (run_workflow 10 cPorts none [Msg.mk "user" ""] 1).next_display_order :=
  c9_message_count_invariant 10 cPorts _ (ReachableState.start 1)
